import Mathlib

/-!
Shallow embedding of the AI-Solutions dashboard core (src/dashboard.py):
the record store, the filter engine `filter_dataset`, the aggregation
helpers, and the Flask metric endpoints, together with proofs settling the
frozen claims about them.

Modelling conventions:
* a pandas DataFrame is a `Schema` (which columns exist) plus an ordered
  list of `Record`s whose fields are `Option`-valued (a `none` is a NaN/NaT
  cell);
* money columns are `Rat` (decimal arithmetic is exact in the source's
  pandas ops used here); timestamps are `Int` instants, a calendar date is
  derived from an instant by `dateOf`;
* a pandas operation that can raise (KeyError on a missing column,
  ValueError on renaming the columns of a 0-column frame or on `idxmax` of
  an empty series) is embedded in `Except String` / an `Api.err` result;
* query parameters are pre-parsed scalars (`Params`); an absent key or an
  empty-string value is inactive, exactly as the source's
  `if key in params and params[key]` guards decide truthiness.
-/

namespace Dashboard

/-- Which columns the CSV-derived frame actually has.  Presence of a column
is distinct from presence of a value in a given row. -/
structure Schema where
  hasTimestamp : Bool
  hasCountry : Bool
  hasRegion : Bool
  hasCity : Bool
  hasRequestCategory : Bool
  hasJobTitle : Bool
  hasSalesRep : Bool
  hasServiceType : Bool
  hasIPAddress : Bool
  hasTransactionAmount : Bool
  hasRevenue : Bool
  hasProfit : Bool
  hasConversionStatus : Bool
  hasSalesTarget : Bool
  hasProductName : Bool
  hasLikes : Bool
  hasPageAccessed : Bool
deriving DecidableEq

/-- One log record; every field optional (`none` = NaN/NaT cell). -/
structure Record where
  timestamp : Option Int
  country : Option String
  region : Option String
  city : Option String
  requestCategory : Option String
  jobTitle : Option String
  salesRep : Option String
  serviceType : Option String
  ipAddress : Option String
  transactionAmount : Option Rat
  revenue : Option Rat
  profit : Option Rat
  conversionStatus : Option String
  salesTarget : Option Rat
  productName : Option String
  likes : Option Rat
  pageAccessed : Option String
deriving DecidableEq

/-- A pandas DataFrame: schema plus ordered rows. -/
structure DataFrame where
  schema : Schema
  rows : List Record
deriving DecidableEq

/-- The recognized filter keys of `filter_dataset` (query parameters).
Date bounds arrive pre-parsed (`pd.to_datetime` on a well-formed scalar);
`none` covers an absent key, and for dates also an empty value. -/
structure Params where
  start_date : Option Int
  end_date : Option Int
  country : Option String
  region : Option String
  city : Option String
  activity : Option String
  job_title : Option String
  sales_rep : Option String
deriving DecidableEq

/-- Truthiness of a string parameter in `if key in params and params[key]`:
present and not the empty string. -/
def sActive : Option String → Bool
  | none => false
  | some v => !(v == "")

/-- The equality predicate a (possibly inactive) string parameter imposes on
a cell: inactive parameters impose nothing, an active one demands exact
equality with a present cell (a NaN cell never matches, as in pandas). -/
def eqTest (p : Option String) (cell : Option String) : Bool :=
  match p with
  | none => true
  | some v => if v == "" then true else cell == some v

/-- The date-bound predicate of one timestamp filter step, conditioned on the
column existing (`cmp d t` compares the bound `d` with the cell `t`; a NaT
cell compares false, as in pandas). -/
def datePred (p : Option Int) (hasCol : Bool) (cmp : Int → Int → Bool) (r : Record) : Bool :=
  if hasCol then
    match p with
    | none => true
    | some d =>
      match r.timestamp with
      | some t => cmp d t
      | none => false
  else true

/-- The predicate one categorical filter step effectively applies: nothing
when the column is missing (the step either errors or is skipped before the
predicate is reached), the parameter's equality test otherwise. -/
def stepPredStr (p : Option String) (hasCol : Bool) (get : Record → Option String) (r : Record) : Bool :=
  if hasCol then eqTest p (get r) else true

/-- One `dataframe = dataframe[pd.to_datetime(dataframe[Timestamp]) <cmp> bound]`
step of `filter_dataset`: inactive parameters pass the frame through, an
active one needs the Timestamp column (KeyError otherwise). -/
def runStepDate (dfr : DataFrame) (p : Option Int) (hasCol : Bool) (cmp : Int → Int → Bool) :
    Except String DataFrame :=
  match p with
  | none => .ok dfr
  | some d =>
    if hasCol then
      .ok ⟨dfr.schema, dfr.rows.filter (fun r =>
        match r.timestamp with
        | some t => cmp d t
        | none => false)⟩
    else .error "KeyError"

/-- One `dataframe = dataframe[dataframe[col] == params[key]]` step of
`filter_dataset`.  `skipMissing` is true only for the `job_title` step,
whose source line additionally tests `Job_Title in dataframe.columns`;
every other step raises KeyError when its column is absent. -/
def runStepStr (dfr : DataFrame) (p : Option String) (hasCol skipMissing : Bool)
    (get : Record → Option String) : Except String DataFrame :=
  match p with
  | none => .ok dfr
  | some v =>
    if v == "" then .ok dfr
    else if hasCol then
      .ok ⟨dfr.schema, dfr.rows.filter (fun r => get r == some v)⟩
    else if skipMissing then .ok dfr
    else .error "KeyError"

/-- `filter_dataset(dataframe, params)` (src/dashboard.py lines 36-55):
an empty frame is returned unchanged; otherwise the eight recognized keys
are applied in source order.  Filtering never changes the schema, so each
step's column test reads the running frame's (invariant) schema. -/
def filter_dataset (dfr : DataFrame) (P : Params) : Except String DataFrame :=
  if dfr.rows.isEmpty then .ok dfr else
  runStepDate dfr P.start_date dfr.schema.hasTimestamp (fun d t => decide (d ≤ t)) >>= fun d1 =>
  runStepDate d1 P.end_date d1.schema.hasTimestamp (fun d t => decide (t ≤ d)) >>= fun d2 =>
  runStepStr d2 P.country d2.schema.hasCountry false (fun r => r.country) >>= fun d3 =>
  runStepStr d3 P.region d3.schema.hasRegion false (fun r => r.region) >>= fun d4 =>
  runStepStr d4 P.city d4.schema.hasCity false (fun r => r.city) >>= fun d5 =>
  runStepStr d5 P.activity d5.schema.hasRequestCategory false (fun r => r.requestCategory) >>= fun d6 =>
  runStepStr d6 P.job_title d6.schema.hasJobTitle true (fun r => r.jobTitle) >>= fun d7 =>
  runStepStr d7 P.sales_rep d7.schema.hasSalesRep false (fun r => r.salesRep)

/-- The columns a spec needs for `filter_dataset` to succeed on a non-empty
frame: every active key except `job_title` (which is guarded in the source)
requires its column. -/
def colsOK (s : Schema) (P : Params) : Bool :=
  (!P.start_date.isSome || s.hasTimestamp) &&
  (!P.end_date.isSome || s.hasTimestamp) &&
  (!sActive P.country || s.hasCountry) &&
  (!sActive P.region || s.hasRegion) &&
  (!sActive P.city || s.hasCity) &&
  (!sActive P.activity || s.hasRequestCategory) &&
  (!sActive P.sales_rep || s.hasSalesRep)

/-- The conjunction of predicates `filter_dataset` effectively applies to a
row, schema-aware: each categorical test applies only when its column
exists (in particular the `job_title` test is skipped on a schema without
the Job_Title column), and the date bounds apply via the Timestamp column. -/
def matchesSpecSchema (s : Schema) (P : Params) (r : Record) : Bool :=
  datePred P.start_date s.hasTimestamp (fun d t => decide (d ≤ t)) r &&
  datePred P.end_date s.hasTimestamp (fun d t => decide (t ≤ d)) r &&
  stepPredStr P.country s.hasCountry (fun x => x.country) r &&
  stepPredStr P.region s.hasRegion (fun x => x.region) r &&
  stepPredStr P.city s.hasCity (fun x => x.city) r &&
  stepPredStr P.activity s.hasRequestCategory (fun x => x.requestCategory) r &&
  stepPredStr P.job_title s.hasJobTitle (fun x => x.jobTitle) r &&
  stepPredStr P.sales_rep s.hasSalesRep (fun x => x.salesRep) r

/-- The date-bound test exactly as the claims word it, independent of any
schema: inclusive bound against the record's timestamp. -/
def dateLB (p : Option Int) (ts : Option Int) : Bool :=
  match p with
  | none => true
  | some d =>
    match ts with
    | some t => decide (d ≤ t)
    | none => false

/-- The date-upper-bound test as the claims word it. -/
def dateUB (p : Option Int) (ts : Option Int) : Bool :=
  match p with
  | none => true
  | some d =>
    match ts with
    | some t => decide (t ≤ d)
    | none => false

/-- Modelled from the claim wording of C2 (not from the source): the
conjunction of all predicates implied by non-empty spec fields, with every
categorical field — including job title — an unconditional exact
string-equality test.  Used to compare the claimed semantics with
`filter_dataset`. -/
def specMatches (P : Params) (r : Record) : Bool :=
  dateLB P.start_date r.timestamp &&
  dateUB P.end_date r.timestamp &&
  eqTest P.country r.country &&
  eqTest P.region r.region &&
  eqTest P.city r.city &&
  eqTest P.activity r.requestCategory &&
  eqTest P.job_title r.jobTitle &&
  eqTest P.sales_rep r.salesRep

/-- The predicate of the amended claim C2: the conjunction of predicates
implied by non-empty spec fields, schema-blind for the dates and for every
categorical field except job title — whose equality test applies only when
the Job_Title column is present in the schema (it is skipped otherwise,
mirroring the guard on source line 51). -/
def matchesAmended (s : Schema) (P : Params) (r : Record) : Bool :=
  dateLB P.start_date r.timestamp &&
  dateUB P.end_date r.timestamp &&
  eqTest P.country r.country &&
  eqTest P.region r.region &&
  eqTest P.city r.city &&
  eqTest P.activity r.requestCategory &&
  (if s.hasJobTitle then eqTest P.job_title r.jobTitle else true) &&
  eqTest P.sales_rep r.salesRep

/-- A spec whose keys are all empty: absent date bounds, and each string
key absent or the empty string. -/
def emptySpec (P : Params) : Bool :=
  P.start_date.isNone && P.end_date.isNone &&
  !sActive P.country && !sActive P.region && !sActive P.city &&
  !sActive P.activity && !sActive P.job_title && !sActive P.sales_rep

/-! ## Aggregation library -/

/-- Calendar date derived from a timestamp instant (whole days). -/
def dateOf (t : Int) : Int := t / 86400

/-- `subset[pred][field].sum()`: sum of a column over the rows satisfying a
predicate; NaN cells are skipped by pandas `sum`, giving 0 on empty. -/
def sumWhere (rows : List Record) (val : Record → Option Rat) (pred : Record → Bool) : Rat :=
  ((rows.filter pred).filterMap val).sum

/-- `subset[subset[field] > 0][field].sum()` (a NaN cell fails the `> 0`
comparison, as in pandas). -/
def posSum (rows : List Record) (val : Record → Option Rat) : Rat :=
  sumWhere rows val (fun r =>
    match val r with
    | some v => decide (0 < v)
    | none => false)

/-- `subset[subset[field] < 0][field].sum()`. -/
def negSum (rows : List Record) (val : Record → Option Rat) : Rat :=
  sumWhere rows val (fun r =>
    match val r with
    | some v => decide (v < 0)
    | none => false)

/-- Insert into a measure-descending list, keeping existing greater-or-equal
elements in front (stable descending insertion). -/
def insertDesc {α : Type} (le : α → α → Bool) (x : α) : List α → List α
  | [] => [x]
  | y :: ys => if le x y then y :: insertDesc le x ys else x :: y :: ys

/-- Stable descending insertion sort (`value_counts` sorts by count
descending; `sort_values(ascending=False)` likewise). -/
def sortDesc {α : Type} (le : α → α → Bool) (l : List α) : List α :=
  l.foldl (fun acc x => insertDesc le x acc) []

/-- `series.value_counts()`: frequency table of the non-null values, sorted
by count descending. -/
def valueCounts (vals : List String) : List (String × Nat) :=
  sortDesc (fun a b => decide (a.2 ≤ b.2))
    ((vals.dedup).map (fun k => (k, vals.count k)))

/-- `subset.groupby(groupField)[sumField].sum()`: per-group sum of a column.
Rows whose group key is NaN are dropped by pandas `groupby`; NaN summands
are skipped.  (pandas sorts group keys; key order is irrelevant to every
property proved here, so rows keep dedup order.) -/
def groupSum (rows : List Record) (key : Record → Option String) (val : Record → Option Rat) :
    List (String × Rat) :=
  ((rows.filterMap key).dedup).map
    (fun k => (k, ((rows.filter (fun r => key r == some k)).filterMap val).sum))

/-- `subset.groupby(Date).size()` over dates derived from Timestamp: count
of records per calendar date; NaT rows are dropped by `groupby`. -/
def dailyCounts (rows : List Record) : List (Int × Nat) :=
  let ds := rows.filterMap (fun r => r.timestamp.map dateOf)
  (ds.dedup).map (fun d => (d, ds.count d))

/-- `subset.groupby([Country, Region, City, Product_Name]).size()`:
rows with any NaN key are dropped by `groupby`. -/
def group4 (rows : List Record) : List ((String × String × String × String) × Nat) :=
  let ks := rows.filterMap (fun r =>
    match r.country, r.region, r.city, r.productName with
    | some a, some b, some c, some d => some (a, b, c, d)
    | _, _, _, _ => none)
  (ks.dedup).map (fun k => (k, ks.count k))

/-- The conversion rate of src/dashboard.py line 151:
`(count of Conversion_Status == "Converted") / len * 100` when the column
exists and the subset is non-empty, `0` otherwise. -/
def conversion_rate (f : DataFrame) : Rat :=
  if f.schema.hasConversionStatus && decide (0 < f.rows.length) then
    ((f.rows.filter (fun r => r.conversionStatus == some "Converted")).length : Rat)
      / (f.rows.length : Rat) * 100
  else 0

/-- A representable pandas frame: a value can only sit in a column the
schema actually has (a column absent from the CSV has no cells). -/
def coherent (f : DataFrame) : Bool :=
  f.rows.all (fun r =>
    (f.schema.hasTimestamp || r.timestamp == none) &&
    (f.schema.hasCountry || r.country == none) &&
    (f.schema.hasRegion || r.region == none) &&
    (f.schema.hasCity || r.city == none) &&
    (f.schema.hasRequestCategory || r.requestCategory == none) &&
    (f.schema.hasJobTitle || r.jobTitle == none) &&
    (f.schema.hasSalesRep || r.salesRep == none) &&
    (f.schema.hasServiceType || r.serviceType == none) &&
    (f.schema.hasIPAddress || r.ipAddress == none) &&
    (f.schema.hasTransactionAmount || r.transactionAmount == none) &&
    (f.schema.hasRevenue || r.revenue == none) &&
    (f.schema.hasProfit || r.profit == none) &&
    (f.schema.hasConversionStatus || r.conversionStatus == none) &&
    (f.schema.hasSalesTarget || r.salesTarget == none) &&
    (f.schema.hasProductName || r.productName == none) &&
    (f.schema.hasLikes || r.likes == none) &&
    (f.schema.hasPageAccessed || r.pageAccessed == none))

/-! ## Loading (src/dashboard.py lines 17-26) -/

/-- The per-record profit rule the loader's
`df["Revenue"] - df["Transaction_Amount"] if ... else 0` line implements:
a column-level presence test, with NaN propagating through the elementwise
subtraction when both columns exist. -/
def profitRule (s : Schema) (r : Record) : Option Rat :=
  if s.hasRevenue && s.hasTransactionAmount then
    match r.revenue, r.transactionAmount with
    | some a, some b => some (a - b)
    | _, _ => none
  else some 0

/-- `load_data` on an already-parsed raw frame: `Profit` becomes the
elementwise `Revenue - Transaction_Amount` when both columns exist (NaN
propagates through the subtraction) and the scalar 0 otherwise; `Job_Title`
NaNs become "Unknown" when that column exists; rows whose timestamp failed
to parse (`Date` NaN) are dropped.  (The out-of-scope CSV/datetime parsing
is represented by the raw frame's already-Option-valued cells.) -/
def load_data (raw : DataFrame) : DataFrame :=
  let s := raw.schema
  let rows1 := raw.rows.map (fun r =>
    { r with profit :=
        if s.hasRevenue && s.hasTransactionAmount then
          match r.revenue, r.transactionAmount with
          | some a, some b => some (a - b)
          | _, _ => none
        else some 0 })
  let rows2 :=
    if s.hasJobTitle then
      rows1.map (fun r => { r with jobTitle := some (r.jobTitle.getD "Unknown") })
    else rows1
  ⟨{ s with hasProfit := true }, rows2.filter (fun r => r.timestamp.isSome)⟩

/-! ## Flask endpoints (src/dashboard.py lines 58-165) -/

/-- Shape of a JSON endpoint response: a payload, the degraded
`{"message": …, "filters": params, …}` object (`withDataCount` records
whether the shape also carries `"data_count": 0`), or a raised exception. -/
inductive Api (α : Type) where
  | ok : α → Api α
  | noData : String → Bool → Api α
  | err : String → Api α
deriving DecidableEq

/-- Whether a response is the degraded `{message, filters, ...}` shape. -/
def isNoData {α : Type} : Api α → Bool
  | .noData _ _ => true
  | _ => false

/-- `df.columns = [two names]`: pandas raises ValueError unless the frame
has exactly two columns (a bare `pd.DataFrame()` has zero). -/
def setCols2 {α : Type} (ncols : Nat) (rows : List α) : Except String (List α) :=
  if ncols = 2 then .ok rows else .error "ValueError: Length mismatch"

/-- `/api/total_entries`: always the bare count, even for an empty subset. -/
def total_entries (store : DataFrame) (P : Params) : Api Nat :=
  match filter_dataset store P with
  | .error e => .err e
  | .ok f => .ok f.rows.length

/-- `/api/unique_visitors`: `nunique` of IP_Address if the column exists,
else 0. -/
def unique_visitors (store : DataFrame) (P : Params) : Api Nat :=
  match filter_dataset store P with
  | .error e => .err e
  | .ok f =>
    .ok (if f.schema.hasIPAddress then ((f.rows.filterMap (fun r => r.ipAddress)).dedup).length else 0)

/-- `/api/trends`: per-date interaction counts; needs the Timestamp column. -/
def trends (store : DataFrame) (P : Params) : Api (List (Int × Nat)) :=
  match filter_dataset store P with
  | .error e => .err e
  | .ok f =>
    if f.schema.hasTimestamp then .ok (dailyCounts f.rows) else .err "KeyError"

/-- `/api/service_requests` (lines 79-85): `value_counts` of Service_Type
when the column exists, else a bare `pd.DataFrame()` (zero columns); either
way the source then assigns a two-name column list, which raises ValueError
on the zero-column fallback. -/
def service_requests (store : DataFrame) (P : Params) : Api (List (String × Nat)) :=
  match filter_dataset store P with
  | .error e => .err e
  | .ok f =>
    let pre : Nat × List (String × Nat) :=
      if f.schema.hasServiceType then (2, valueCounts (f.rows.filterMap (fun r => r.serviceType)))
      else (0, [])
    match setCols2 pre.1 pre.2 with
    | .error e => .err e
    | .ok rs => .ok rs

/-- `/api/sales_metrics` (lines 87-96): degraded shape on an empty subset;
otherwise positive-only Transaction_Amount sum, positive-only Profit sum,
negative-only Profit sum, each 0 when its column is absent. -/
def sales_metrics (store : DataFrame) (P : Params) : Api (Rat × Rat × Rat) :=
  match filter_dataset store P with
  | .error e => .err e
  | .ok f =>
    if f.rows.isEmpty then .noData "No sales metrics available for the selected filters" true
    else .ok
      ((if f.schema.hasTransactionAmount then posSum f.rows (fun r => r.transactionAmount) else 0),
       (if f.schema.hasProfit then posSum f.rows (fun r => r.profit) else 0),
       (if f.schema.hasProfit then negSum f.rows (fun r => r.profit) else 0))

/-- `/api/top_products` (lines 98-108): degraded shape on empty; then the
sold-count table (ValueError on the zero-column fallback when Product_Name
is absent) and the likes-sum table (`sort_values(by=Likes)` raises
KeyError on the bare-frame fallback when either column is absent). -/
def top_products (store : DataFrame) (P : Params) :
    Api (List (String × Nat) × List (String × Rat)) :=
  match filter_dataset store P with
  | .error e => .err e
  | .ok f =>
    if f.rows.isEmpty then .noData "No product data available for the selected filters" true
    else
      let pre : Nat × List (String × Nat) :=
        if f.schema.hasProductName then (2, valueCounts (f.rows.filterMap (fun r => r.productName)))
        else (0, [])
      match setCols2 pre.1 pre.2 with
      | .error e => .err e
      | .ok sold =>
        if f.schema.hasProductName && f.schema.hasLikes then
          .ok (sold, sortDesc (fun a b => decide (a.2 ≤ b.2))
            (groupSum f.rows (fun r => r.productName) (fun r => r.likes)))
        else .err "KeyError"

/-- `/api/customer_locations` (lines 110-117): degraded shape on empty; the
four-key group sizes when all four columns exist, else the empty record
list a bare `pd.DataFrame().to_dict(records)` serializes to. -/
def customer_locations (store : DataFrame) (P : Params) :
    Api (List ((String × String × String × String) × Nat)) :=
  match filter_dataset store P with
  | .error e => .err e
  | .ok f =>
    if f.rows.isEmpty then .noData "No customer location data available for the selected filters" true
    else .ok
      (if f.schema.hasCountry && f.schema.hasRegion && f.schema.hasCity && f.schema.hasProductName
       then group4 f.rows else [])

/-- `/api/page_access` (lines 119-127): degraded shape on empty; then the
same rename-after-fallback pattern as `/api/service_requests`. -/
def page_access (store : DataFrame) (P : Params) : Api (List (String × Nat)) :=
  match filter_dataset store P with
  | .error e => .err e
  | .ok f =>
    if f.rows.isEmpty then .noData "No page access data available for the selected filters" true
    else
      let pre : Nat × List (String × Nat) :=
        if f.schema.hasPageAccessed then (2, valueCounts (f.rows.filterMap (fun r => r.pageAccessed)))
        else (0, [])
      match setCols2 pre.1 pre.2 with
      | .error e => .err e
      | .ok rs => .ok rs

/-- `/api/job_title_counts` (lines 129-137): a `{message, filters}` object
without a data_count key when the column is missing or the subset is empty,
else the frequency table. -/
def job_title_counts (store : DataFrame) (P : Params) : Api (List (String × Nat)) :=
  match filter_dataset store P with
  | .error e => .err e
  | .ok f =>
    if !f.schema.hasJobTitle || f.rows.isEmpty then
      .noData "\x27Job_Title\x27 column not found or no data after filtering" false
    else .ok (valueCounts (f.rows.filterMap (fun r => r.jobTitle)))

/-- The composite insights payload of `/api/generate_insights`. -/
structure Insights where
  avg_daily_interactions : Rat
  top_service_request : String
  total_sales : Rat
  conversion_rate : Rat
  message : String
deriving DecidableEq

/-- `/api/generate_insights` (lines 139-155): degraded shape on empty;
average daily interactions, the `value_counts().idxmax()` dominant service
type ("N/A" when the column is absent, but a raised ValueError when the
column exists and holds no values, since `idxmax` of an empty series
raises), positive-sales sum, conversion rate and the >50 threshold
message. -/
def generate_insights (store : DataFrame) (P : Params) : Api Insights :=
  match filter_dataset store P with
  | .error e => .err e
  | .ok f =>
    if f.rows.isEmpty then .noData "No data available for the selected filters" true
    else if !f.schema.hasTimestamp then .err "KeyError"
    else
      let daily := dailyCounts f.rows
      let avg : Rat :=
        if daily.isEmpty then 0
        else ((daily.map (fun p => (p.2 : Rat))).sum) / (daily.length : Rat)
      let topRes : Except String String :=
        if f.schema.hasServiceType && !f.rows.isEmpty then
          match (valueCounts (f.rows.filterMap (fun r => r.serviceType))).head? with
          | some kv => .ok kv.1
          | none => .error "ValueError: attempt to get argmax of an empty sequence"
        else .ok "N/A"
      match topRes with
      | .error e => .err e
      | .ok top =>
        let ts : Rat :=
          if f.schema.hasTransactionAmount then posSum f.rows (fun r => r.transactionAmount) else 0
        let cr := conversion_rate f
        .ok ⟨avg, top, ts, cr,
          if decide (50 < cr) then "Sales performance is strong"
          else "Sales performance needs improvement"⟩

/-- `/api/sales_by_rep` (lines 157-165): degraded shape on empty; then the
per-representative Transaction_Amount sums, renamed through the same
two-name column assignment (ValueError on the bare-frame fallback when
either column is absent). -/
def sales_by_rep (store : DataFrame) (P : Params) : Api (List (String × Rat)) :=
  match filter_dataset store P with
  | .error e => .err e
  | .ok f =>
    if f.rows.isEmpty then .noData "No data for selected filters" true
    else
      let pre : Nat × List (String × Rat) :=
        if f.schema.hasSalesRep && f.schema.hasTransactionAmount then
          (2, groupSum f.rows (fun r => r.salesRep) (fun r => r.transactionAmount))
        else (0, [])
      match setCols2 pre.1 pre.2 with
      | .error e => .err e
      | .ok rs => .ok rs

/-- The per-representative metrics of the Streamlit member view
(src/dashboard.py lines 292-296), on a non-empty `member_data`:
total Transaction_Amount sum, total Revenue sum, `Sales_Target.iloc[0]`
guarded by `not isnull().all()` (the first ROW's value — `none` models the
NaN that `iloc[0]` returns when the first row's target is null), and the
achievement percentage (`if sales_target` is falsy only for 0, so a NaN
target propagates into a NaN percentage). -/
def individual_performance (m : DataFrame) : Rat × Rat × Option Rat × Option Rat :=
  let totalSales : Rat :=
    if m.schema.hasTransactionAmount then (m.rows.filterMap (fun r => r.transactionAmount)).sum else 0
  let totalRevenue : Rat :=
    if m.schema.hasRevenue then (m.rows.filterMap (fun r => r.revenue)).sum else 0
  let target : Option Rat :=
    if m.schema.hasSalesTarget && !(m.rows.all (fun r => r.salesTarget.isNone)) then
      m.rows.head?.bind (fun r => r.salesTarget)
    else some 0
  let achievement : Option Rat :=
    match target with
    | none => none
    | some t => if t = 0 then some 0 else some (totalRevenue / t * 100)
  (totalSales, totalRevenue, target, achievement)

/-! ## Concrete fixtures for counterexamples and witnesses -/

/-- A record with every cell NaN. -/
def blankRecord : Record :=
  ⟨none, none, none, none, none, none, none, none, none, none, none, none, none, none, none, none, none⟩

/-- A schema with no columns at all. -/
def blankSchema : Schema :=
  ⟨false, false, false, false, false, false, false, false, false, false, false, false, false,
   false, false, false, false⟩

/-- An empty parameter map. -/
def noParams : Params := ⟨none, none, none, none, none, none, none, none⟩

/-- A one-row store whose schema has only the Timestamp column. -/
def tsOnlyStore : DataFrame :=
  ⟨{ blankSchema with hasTimestamp := true }, [{ blankRecord with timestamp := some 0 }]⟩

/-- A one-row store with a Service_Type column whose single cell is NaN. -/
def nullServiceStore : DataFrame :=
  ⟨{ blankSchema with hasTimestamp := true, hasServiceType := true },
   [{ blankRecord with timestamp := some 0 }]⟩

/-- Parameters whose only active key is `job_title`. -/
def jobTitleParams : Params := ⟨none, none, none, none, none, none, some "Engineer", none⟩

/-- Parameters whose only active key is `country`. -/
def countryParams (v : String) : Params := ⟨none, none, some v, none, none, none, none, none⟩

/-- A store with Timestamp and Country columns and one record from country "A". -/
def countryAStore : DataFrame :=
  ⟨{ blankSchema with hasTimestamp := true, hasCountry := true },
   [{ blankRecord with timestamp := some 0, country := some "A" }]⟩

/-- A raw frame with Revenue and Transaction_Amount columns where one record
has a revenue but a NaN transaction amount. -/
def mixedProfitRaw : DataFrame :=
  ⟨{ blankSchema with hasTimestamp := true, hasRevenue := true, hasTransactionAmount := true },
   [{ blankRecord with timestamp := some 0, revenue := some 150 }]⟩

/-- The raw frame of the spec's Scenario C: transaction amounts
[100, -20, 50] against revenues [150, -10, 70]. -/
def scenarioCRaw : DataFrame :=
  ⟨{ blankSchema with hasTimestamp := true, hasRevenue := true, hasTransactionAmount := true },
   [{ blankRecord with timestamp := some 0, revenue := some 150, transactionAmount := some 100 },
    { blankRecord with timestamp := some 1, revenue := some (-10), transactionAmount := some (-20) },
    { blankRecord with timestamp := some 2, revenue := some 70, transactionAmount := some 50 }]⟩

/-- A member subset whose first row has a NaN Sales_Target while a later row
has the value 5. -/
def nanFirstTargetStore : DataFrame :=
  ⟨{ blankSchema with
       hasTimestamp := true
       hasSalesRep := true
       hasRevenue := true
       hasTransactionAmount := true
       hasSalesTarget := true },
   [{ blankRecord with
        timestamp := some 0
        salesRep := some "R"
        revenue := some 10
        transactionAmount := some 4 },
    { blankRecord with
        timestamp := some 1
        salesRep := some "R"
        revenue := some 20
        transactionAmount := some 6
        salesTarget := some 5 }]⟩

/-- A member subset whose first row carries the Sales_Target value 4. -/
def plainTargetStore : DataFrame :=
  ⟨{ blankSchema with
       hasTimestamp := true
       hasSalesRep := true
       hasRevenue := true
       hasTransactionAmount := true
       hasSalesTarget := true },
   [{ blankRecord with
        timestamp := some 0
        salesRep := some "R"
        revenue := some 10
        transactionAmount := some 7
        salesTarget := some 4 }]⟩

/-- One row whose Sales_Rep is NaN but whose Transaction_Amount is 7: the
group key is dropped by `groupby`, the plain column sum still sees the 7. -/
def nullKeyRows : List Record :=
  [{ blankRecord with timestamp := some 0, transactionAmount := some 7 }]

/-- A two-row subset with a Conversion_Status column, one row "Converted". -/
def convHalfStore : DataFrame :=
  ⟨{ blankSchema with hasTimestamp := true, hasConversionStatus := true },
   [{ blankRecord with timestamp := some 0, conversionStatus := some "Converted" },
    { blankRecord with timestamp := some 1, conversionStatus := some "No" }]⟩

/-- A store for the sign-invariant witness: a gain, a loss and a NaN cell. -/
def signsStore : DataFrame :=
  ⟨{ blankSchema with hasTimestamp := true, hasTransactionAmount := true, hasProfit := true },
   [{ blankRecord with timestamp := some 0, transactionAmount := some 100, profit := some 50 },
    { blankRecord with timestamp := some 1, transactionAmount := some (-3), profit := some (-8) },
    { blankRecord with timestamp := some 2 }]⟩

/-- Decidable equality for `Except`, needed so concrete filter computations
can be settled by `decide`. -/
instance instDecEqExcept {e a : Type} [DecidableEq e] [DecidableEq a] : DecidableEq (Except e a)
  | .ok x, .ok y => if h : x = y then .isTrue (by rw [h]) else .isFalse (fun hh => h (Except.ok.inj hh))
  | .ok _, .error _ => .isFalse (fun hh => Except.noConfusion hh)
  | .error _, .ok _ => .isFalse (fun hh => Except.noConfusion hh)
  | .error x, .error y => if h : x = y then .isTrue (by rw [h]) else .isFalse (fun hh => h (Except.error.inj hh))


/-! ## Proofs -/

unseal Rat.add Rat.sub Rat.mul Rat.inv

theorem except_bind_ok {e a b : Type} (x : Except e a) (f : a → Except e b) (out : b) :
    (x >>= f) = .ok out ↔ ∃ c, x = .ok c ∧ f c = .ok out := by
  cases x <;> simp [Bind.bind, Except.bind]

theorem runStepDate_ok (dfr : DataFrame) (p : Option Int) (hasCol : Bool)
    (cmp : Int → Int → Bool) (b : DataFrame) :
    runStepDate dfr p hasCol cmp = .ok b ↔
      ((!p.isSome || hasCol) = true ∧
        b = ⟨dfr.schema, dfr.rows.filter (fun r => datePred p hasCol cmp r)⟩) := by
  cases p with
  | none =>
    have hpred : dfr.rows.filter (fun r => datePred none hasCol cmp r) = dfr.rows := by
      have h2 : ∀ r, datePred none hasCol cmp r = true := by intro r; simp [datePred]
      simp [List.filter_eq_self]
      intro a _; exact h2 a
    constructor
    · intro h
      refine ⟨rfl, ?_⟩
      have hb : b = dfr := by
        simpa [runStepDate] using h.symm
      rw [hb, hpred]
    · rintro ⟨-, rfl⟩
      simp [runStepDate, hpred]
  | some d =>
    by_cases hc : hasCol
    · subst hc
      simp [runStepDate, datePred, eq_comm]
    · simp at hc
      subst hc
      simp [runStepDate, datePred]

theorem runStepStr_ok (dfr : DataFrame) (p : Option String) (hasCol skip : Bool)
    (get : Record → Option String) (b : DataFrame) :
    runStepStr dfr p hasCol skip get = .ok b ↔
      ((!sActive p || hasCol || skip) = true ∧
        b = ⟨dfr.schema, dfr.rows.filter (fun r => stepPredStr p hasCol get r)⟩) := by
  cases p with
  | none =>
    have hpred : dfr.rows.filter (fun r => stepPredStr none hasCol get r) = dfr.rows := by
      rw [List.filter_eq_self]
      intro a _; simp [stepPredStr, eqTest]
    constructor
    · intro h
      refine ⟨by simp [sActive], ?_⟩
      have hb : b = dfr := by simpa [runStepStr] using h.symm
      rw [hb, hpred]
    · rintro ⟨-, rfl⟩
      simp [runStepStr, hpred]
  | some v =>
    by_cases hv : v == ""
    · have hpred : dfr.rows.filter (fun r => stepPredStr (some v) hasCol get r) = dfr.rows := by
        rw [List.filter_eq_self]
        intro a _; simp [stepPredStr, eqTest, hv]
      constructor
      · intro h
        refine ⟨by simp [sActive, hv], ?_⟩
        have hb : b = dfr := by simpa [runStepStr, hv] using h.symm
        rw [hb, hpred]
      · rintro ⟨-, rfl⟩
        simp [runStepStr, hv, hpred]
    · by_cases hc : hasCol
      · subst hc
        simp [runStepStr, hv, sActive, stepPredStr, eqTest, eq_comm]
      · simp at hc
        subst hc
        by_cases hs : skip
        · subst hs
          have hpred : dfr.rows.filter (fun r => stepPredStr (some v) false get r) = dfr.rows := by
            rw [List.filter_eq_self]
            intro a _; simp [stepPredStr]
          constructor
          · intro h
            refine ⟨by simp, ?_⟩
            have hb : b = dfr := by simpa [runStepStr, hv] using h.symm
            rw [hb, hpred]
          · rintro ⟨-, rfl⟩
            simp [runStepStr, hv, hpred]
        · simp at hs
          subst hs
          simp [runStepStr, hv, sActive, hv]

theorem runStepDate_bind_ok (dfr : DataFrame) (p : Option Int) (hasCol : Bool)
    (cmp : Int → Int → Bool) (f : DataFrame → Except String DataFrame) (out : DataFrame) :
    (runStepDate dfr p hasCol cmp >>= f) = .ok out ↔
      ((!p.isSome || hasCol) = true ∧
        f ⟨dfr.schema, dfr.rows.filter (fun r => datePred p hasCol cmp r)⟩ = .ok out) := by
  rw [except_bind_ok]
  constructor
  · rintro ⟨c, hc, hf⟩
    obtain ⟨h1, rfl⟩ := (runStepDate_ok dfr p hasCol cmp c).mp hc
    exact ⟨h1, hf⟩
  · rintro ⟨h1, hf⟩
    exact ⟨_, (runStepDate_ok dfr p hasCol cmp _).mpr ⟨h1, rfl⟩, hf⟩

theorem runStepStr_bind_ok (dfr : DataFrame) (p : Option String) (hasCol skip : Bool)
    (get : Record → Option String) (f : DataFrame → Except String DataFrame) (out : DataFrame) :
    (runStepStr dfr p hasCol skip get >>= f) = .ok out ↔
      ((!sActive p || hasCol || skip) = true ∧
        f ⟨dfr.schema, dfr.rows.filter (fun r => stepPredStr p hasCol get r)⟩ = .ok out) := by
  rw [except_bind_ok]
  constructor
  · rintro ⟨c, hc, hf⟩
    obtain ⟨h1, rfl⟩ := (runStepStr_ok dfr p hasCol skip get c).mp hc
    exact ⟨h1, hf⟩
  · rintro ⟨h1, hf⟩
    exact ⟨_, (runStepStr_ok dfr p hasCol skip get _).mpr ⟨h1, rfl⟩, hf⟩

set_option maxRecDepth 8192 in
theorem filter_dataset_ok_iff (R : DataFrame) (P : Params) (out : DataFrame) :
    filter_dataset R P = .ok out ↔
      ((R.rows = [] ∧ out = R) ∨
       (R.rows ≠ [] ∧ colsOK R.schema P = true ∧
         out = ⟨R.schema, R.rows.filter (fun r => matchesSpecSchema R.schema P r)⟩)) := by
  cases hE : R.rows.isEmpty with
  | true =>
    have hnil : R.rows = [] := List.isEmpty_iff.mp hE
    rw [filter_dataset, if_pos hE]
    constructor
    · intro h
      exact Or.inl ⟨hnil, (Except.ok.inj h).symm⟩
    · rintro (⟨-, rfl⟩ | ⟨hne, -, -⟩)
      · rfl
      · exact absurd hnil hne
  | false =>
    have hnil : R.rows ≠ [] := by
      intro h; rw [h] at hE; simp at hE
    rw [filter_dataset, if_neg (by simp [hE])]
    simp only [runStepDate_bind_ok, runStepStr_bind_ok, runStepStr_ok, List.filter_filter]
    have hfeq : R.rows.filter (fun a =>
        stepPredStr P.sales_rep R.schema.hasSalesRep (fun r => r.salesRep) a &&
        (stepPredStr P.job_title R.schema.hasJobTitle (fun r => r.jobTitle) a &&
         (stepPredStr P.activity R.schema.hasRequestCategory (fun r => r.requestCategory) a &&
          (stepPredStr P.city R.schema.hasCity (fun r => r.city) a &&
           (stepPredStr P.region R.schema.hasRegion (fun r => r.region) a &&
            (stepPredStr P.country R.schema.hasCountry (fun r => r.country) a &&
             (datePred P.end_date R.schema.hasTimestamp (fun d t => decide (t ≤ d)) a &&
              datePred P.start_date R.schema.hasTimestamp (fun d t => decide (d ≤ t)) a))))))) =
        R.rows.filter (fun r => matchesSpecSchema R.schema P r) := by
      apply List.filter_congr
      intro r _
      unfold matchesSpecSchema
      generalize datePred P.start_date R.schema.hasTimestamp (fun d t => decide (d ≤ t)) r = a1
      generalize datePred P.end_date R.schema.hasTimestamp (fun d t => decide (t ≤ d)) r = a2
      generalize stepPredStr P.country R.schema.hasCountry (fun x => x.country) r = a3
      generalize stepPredStr P.region R.schema.hasRegion (fun x => x.region) r = a4
      generalize stepPredStr P.city R.schema.hasCity (fun x => x.city) r = a5
      generalize stepPredStr P.activity R.schema.hasRequestCategory (fun x => x.requestCategory) r = a6
      generalize stepPredStr P.job_title R.schema.hasJobTitle (fun x => x.jobTitle) r = a7
      generalize stepPredStr P.sales_rep R.schema.hasSalesRep (fun x => x.salesRep) r = a8
      revert a1 a2 a3 a4 a5 a6 a7 a8
      decide
    have hcols : ((!P.start_date.isSome || R.schema.hasTimestamp) = true ∧
        (!P.end_date.isSome || R.schema.hasTimestamp) = true ∧
        (!sActive P.country || R.schema.hasCountry || false) = true ∧
        (!sActive P.region || R.schema.hasRegion || false) = true ∧
        (!sActive P.city || R.schema.hasCity || false) = true ∧
        (!sActive P.activity || R.schema.hasRequestCategory || false) = true ∧
        (!sActive P.job_title || R.schema.hasJobTitle || true) = true ∧
        (!sActive P.sales_rep || R.schema.hasSalesRep || false) = true) ↔
        colsOK R.schema P = true := by
      simp [colsOK, and_assoc]
    rw [hfeq]
    simp only [hnil, ne_eq, not_false_eq_true, true_and, false_and, false_or]
    constructor
    · rintro ⟨h1, h2, h3, h4, h5, h6, h7, h8, heq⟩
      exact ⟨hcols.mp ⟨h1, h2, h3, h4, h5, h6, h7, h8⟩, heq⟩
    · rintro ⟨hc, heq⟩
      obtain ⟨h1, h2, h3, h4, h5, h6, h7, h8⟩ := hcols.mpr hc
      exact ⟨h1, h2, h3, h4, h5, h6, h7, h8, heq⟩

theorem except_bind_error {e a b : Type} (x : Except e a) (f : a → Except e b) (msg : e) :
    (x >>= f) = .error msg ↔ (x = .error msg ∨ ∃ c, x = .ok c ∧ f c = .error msg) := by
  cases x <;> simp [Bind.bind, Except.bind]

theorem runStepDate_error (dfr : DataFrame) (p : Option Int) (hasCol : Bool)
    (cmp : Int → Int → Bool) (msg : String)
    (h : runStepDate dfr p hasCol cmp = .error msg) : msg = "KeyError" := by
  cases p with
  | none => simp [runStepDate] at h
  | some d =>
    by_cases hc : hasCol
    · simp [runStepDate, hc] at h
    · simp at hc
      subst hc
      simpa [runStepDate] using h.symm

theorem runStepStr_error (dfr : DataFrame) (p : Option String) (hasCol skip : Bool)
    (get : Record → Option String) (msg : String)
    (h : runStepStr dfr p hasCol skip get = .error msg) : msg = "KeyError" := by
  cases p with
  | none => simp [runStepStr] at h
  | some v =>
    by_cases hv : v == ""
    · simp [runStepStr, hv] at h
    · by_cases hc : hasCol
      · simp [runStepStr, hv, hc] at h
      · by_cases hs : skip
        · simp [runStepStr, hv, hc, hs] at h
        · simp at hc hs
          subst hc; subst hs
          simpa [runStepStr, hv] using h.symm

theorem filter_dataset_error (R : DataFrame) (P : Params) (msg : String)
    (h : filter_dataset R P = .error msg) : msg = "KeyError" := by
  by_cases hE : R.rows.isEmpty
  · rw [filter_dataset, if_pos hE] at h
    exact absurd h (by simp)
  · rw [filter_dataset, if_neg hE] at h
    rcases (except_bind_error _ _ _).mp h with h | ⟨c1, -, h⟩
    · exact runStepDate_error _ _ _ _ _ h
    rcases (except_bind_error _ _ _).mp h with h | ⟨c2, -, h⟩
    · exact runStepDate_error _ _ _ _ _ h
    rcases (except_bind_error _ _ _).mp h with h | ⟨c3, -, h⟩
    · exact runStepStr_error _ _ _ _ _ _ h
    rcases (except_bind_error _ _ _).mp h with h | ⟨c4, -, h⟩
    · exact runStepStr_error _ _ _ _ _ _ h
    rcases (except_bind_error _ _ _).mp h with h | ⟨c5, -, h⟩
    · exact runStepStr_error _ _ _ _ _ _ h
    rcases (except_bind_error _ _ _).mp h with h | ⟨c6, -, h⟩
    · exact runStepStr_error _ _ _ _ _ _ h
    rcases (except_bind_error _ _ _).mp h with h | ⟨c7, -, h⟩
    · exact runStepStr_error _ _ _ _ _ _ h
    exact runStepStr_error _ _ _ _ _ _ h

theorem filter_dataset_total (R : DataFrame) (P : Params) :
    filter_dataset R P = .error "KeyError" ∨ ∃ out, filter_dataset R P = .ok out := by
  cases hv : filter_dataset R P with
  | error e =>
    have := filter_dataset_error R P e hv
    subst this
    exact Or.inl rfl
  | ok out => exact Or.inr ⟨out, rfl⟩

theorem list_filter_idem {α : Type} (l : List α) (p : α → Bool) :
    (l.filter p).filter p = l.filter p := by
  rw [List.filter_filter]
  apply List.filter_congr
  intro a _
  cases p a <;> rfl

theorem eqTest_inactive (p : Option String) (hin : sActive p = false) (c : Option String) :
    eqTest p c = true := by
  cases p with
  | none => rfl
  | some v =>
    simp [sActive] at hin
    simp [eqTest, hin]

theorem emptySpec_fields (P : Params) (hP : emptySpec P = true) :
    P.start_date = none ∧ P.end_date = none ∧ sActive P.country = false ∧
    sActive P.region = false ∧ sActive P.city = false ∧ sActive P.activity = false ∧
    sActive P.job_title = false ∧ sActive P.sales_rep = false := by
  simp only [emptySpec, Bool.and_eq_true, Option.isNone_iff_eq_none,
    Bool.not_eq_true'] at hP
  tauto

theorem matchesSpecSchema_of_emptySpec (s : Schema) (P : Params) (hP : emptySpec P = true)
    (r : Record) : matchesSpecSchema s P r = true := by
  obtain ⟨h1, h2, h3, h4, h5, h6, h7, h8⟩ := emptySpec_fields P hP
  simp [matchesSpecSchema, datePred, stepPredStr, h1, h2,
    eqTest_inactive _ h3, eqTest_inactive _ h4, eqTest_inactive _ h5,
    eqTest_inactive _ h6, eqTest_inactive _ h7, eqTest_inactive _ h8]

theorem colsOK_of_emptySpec (s : Schema) (P : Params) (hP : emptySpec P = true) :
    colsOK s P = true := by
  obtain ⟨h1, h2, h3, h4, h5, h6, h7, h8⟩ := emptySpec_fields P hP
  simp [colsOK, h1, h2, h3, h4, h5, h6, h8]

/-- Claim C9: `apply` (filter_dataset) satisfies the identity law — a spec
whose keys are all empty returns the store unchanged — and is idempotent:
a second application of the same spec to a successfully filtered subset
returns that subset unchanged. -/
theorem C9_filter_identity_idempotent :
    (∀ (R : DataFrame) (P : Params), emptySpec P = true → filter_dataset R P = .ok R) ∧
    (∀ (R : DataFrame) (P : Params) (out : DataFrame),
        filter_dataset R P = .ok out → filter_dataset out P = .ok out) := by
  constructor
  · intro R P hP
    by_cases hnil : R.rows = []
    · exact (filter_dataset_ok_iff R P R).mpr (Or.inl ⟨hnil, rfl⟩)
    · apply (filter_dataset_ok_iff R P R).mpr
      refine Or.inr ⟨hnil, colsOK_of_emptySpec _ _ hP, ?_⟩
      have hf : R.rows.filter (fun r => matchesSpecSchema R.schema P r) = R.rows := by
        rw [List.filter_eq_self]
        intro a _
        exact matchesSpecSchema_of_emptySpec _ _ hP a
      rw [hf]
  · intro R P out h
    rcases (filter_dataset_ok_iff R P out).mp h with ⟨hnil, hout⟩ | ⟨hnil, hcols, hout⟩
    · subst hout
      exact (filter_dataset_ok_iff _ _ _).mpr (Or.inl ⟨hnil, rfl⟩)
    · subst hout
      by_cases hfe : R.rows.filter (fun r => matchesSpecSchema R.schema P r) = []
      · exact (filter_dataset_ok_iff _ _ _).mpr (Or.inl ⟨hfe, rfl⟩)
      · apply (filter_dataset_ok_iff _ _ _).mpr
        refine Or.inr ⟨hfe, hcols, ?_⟩
        simp [list_filter_idem]

theorem datePred_LB_of_ok (p : Option Int) (hasCol : Bool)
    (h : (!p.isSome || hasCol) = true) (r : Record) :
    datePred p hasCol (fun d t => decide (d ≤ t)) r = dateLB p r.timestamp := by
  cases p with
  | none => simp [datePred, dateLB]
  | some d =>
    have hc : hasCol = true := by simpa using h
    subst hc
    simp [datePred, dateLB]

theorem datePred_UB_of_ok (p : Option Int) (hasCol : Bool)
    (h : (!p.isSome || hasCol) = true) (r : Record) :
    datePred p hasCol (fun d t => decide (t ≤ d)) r = dateUB p r.timestamp := by
  cases p with
  | none => simp [datePred, dateUB]
  | some d =>
    have hc : hasCol = true := by simpa using h
    subst hc
    simp [datePred, dateUB]

theorem stepPredStr_of_ok (p : Option String) (hasCol : Bool) (get : Record → Option String)
    (h : (!sActive p || hasCol) = true) (r : Record) :
    stepPredStr p hasCol get r = eqTest p (get r) := by
  cases hasCol with
  | true => rfl
  | false =>
    have hin : sActive p = false := by simpa using h
    simp [stepPredStr, eqTest_inactive p hin]

theorem matches_eq_amended (s : Schema) (P : Params) (hc : colsOK s P = true) (r : Record) :
    matchesSpecSchema s P r = matchesAmended s P r := by
  have hc2 : (!P.start_date.isSome || s.hasTimestamp) = true ∧
      (!P.end_date.isSome || s.hasTimestamp) = true ∧
      (!sActive P.country || s.hasCountry) = true ∧
      (!sActive P.region || s.hasRegion) = true ∧
      (!sActive P.city || s.hasCity) = true ∧
      (!sActive P.activity || s.hasRequestCategory) = true ∧
      (!sActive P.sales_rep || s.hasSalesRep) = true := by
    simpa [colsOK, Bool.and_eq_true, and_assoc] using hc
  obtain ⟨h1, h2, h3, h4, h5, h6, h7⟩ := hc2
  unfold matchesSpecSchema matchesAmended
  rw [datePred_LB_of_ok P.start_date s.hasTimestamp h1 r,
      datePred_UB_of_ok P.end_date s.hasTimestamp h2 r,
      stepPredStr_of_ok P.country s.hasCountry (fun x => x.country) h3 r,
      stepPredStr_of_ok P.region s.hasRegion (fun x => x.region) h4 r,
      stepPredStr_of_ok P.city s.hasCity (fun x => x.city) h5 r,
      stepPredStr_of_ok P.activity s.hasRequestCategory (fun x => x.requestCategory) h6 r,
      stepPredStr_of_ok P.sales_rep s.hasSalesRep (fun x => x.salesRep) h7 r]
  rfl

/-- Claim C2 (amended): whenever `filter_dataset` returns, the surviving
rows are exactly the stable filter of the input rows by `matchesAmended` —
the schema-blind conjunction of inclusive date bounds and exact equality
tests for country, region, city, activity and sales_rep, with the single
exception that the job-title test applies only when the Job_Title column
exists in the schema; membership is the stated iff. -/
theorem C2_filter_semantics (R : DataFrame) (P : Params) (out : DataFrame)
    (h : filter_dataset R P = .ok out) :
    out.rows = R.rows.filter (fun r => matchesAmended R.schema P r) ∧
    ∀ r : Record, r ∈ out.rows ↔ (r ∈ R.rows ∧ matchesAmended R.schema P r = true) := by
  rcases (filter_dataset_ok_iff R P out).mp h with ⟨hnil, rfl⟩ | ⟨-, hcols, rfl⟩
  · constructor
    · simp [hnil]
    · intro r
      simp [hnil]
  · have hfe : R.rows.filter (fun r => matchesSpecSchema R.schema P r) =
        R.rows.filter (fun r => matchesAmended R.schema P r) := by
      apply List.filter_congr
      intro r _
      exact matches_eq_amended R.schema P hcols r
    constructor
    · exact hfe
    · intro r
      show r ∈ R.rows.filter (fun r => matchesSpecSchema R.schema P r) ↔ _
      rw [hfe]
      simp [List.mem_filter]

/-- Claim C2, as stated, is false: on a store whose schema lacks the
Job_Title column, a spec with a non-empty job_title survives every record,
while the claimed schema-blind conjunction of predicates would reject them
all. -/
theorem C2_counterexample :
    filter_dataset tsOnlyStore jobTitleParams = .ok tsOnlyStore ∧
    tsOnlyStore.rows.filter (fun r => specMatches jobTitleParams r) = [] ∧
    tsOnlyStore.rows ≠ [] := by
  refine ⟨by decide, by decide, by decide⟩

theorem colsOK_update_jt (s : Schema) (P : Params) (x : Option String) :
    colsOK s { P with job_title := x } = colsOK s P := rfl

theorem matches_update_jt (s : Schema) (hJT : s.hasJobTitle = false) (P : Params)
    (x : Option String) (r : Record) :
    matchesSpecSchema s { P with job_title := x } r = matchesSpecSchema s P r := by
  simp [matchesSpecSchema, stepPredStr, hJT]

theorem filter_jt_ignored (R : DataFrame) (P : Params) (x : Option String)
    (hJT : R.schema.hasJobTitle = false) :
    filter_dataset R { P with job_title := x } =
      filter_dataset R { P with job_title := none } := by
  by_cases hnil : R.rows = []
  · rw [(filter_dataset_ok_iff _ _ _).mpr (Or.inl ⟨hnil, rfl⟩),
       (filter_dataset_ok_iff _ _ _).mpr (Or.inl ⟨hnil, rfl⟩)]
  · by_cases hc : colsOK R.schema P = true
    · have hfe : R.rows.filter (fun r => matchesSpecSchema R.schema { P with job_title := x } r) =
          R.rows.filter (fun r => matchesSpecSchema R.schema { P with job_title := none } r) := by
        apply List.filter_congr
        intro r _
        simp [matchesSpecSchema, stepPredStr, hJT]
      rw [(filter_dataset_ok_iff _ _ _).mpr
            (Or.inr ⟨hnil, by rw [colsOK_update_jt]; exact hc, rfl⟩),
          (filter_dataset_ok_iff _ _ _).mpr
            (Or.inr ⟨hnil, by rw [colsOK_update_jt]; exact hc, rfl⟩), hfe]
    · have herr : ∀ y : Option String,
          filter_dataset R { P with job_title := y } = .error "KeyError" := by
        intro y
        rcases filter_dataset_total R { P with job_title := y } with he | ⟨out, ho⟩
        · exact he
        · rcases (filter_dataset_ok_iff _ _ _).mp ho with ⟨h1, -⟩ | ⟨-, h2, -⟩
          · exact absurd h1 hnil
          · rw [colsOK_update_jt] at h2
            exact absurd h2 hc
      rw [herr x, herr none]

/-- Claim C3 (amended): only the job_title key is silently ignored when its
column is absent from the schema (the filter result is the same as with the
key unset); for each of the other recognized keys, a non-empty value naming
an absent column raises KeyError on any non-empty store. -/
theorem C3_absent_column_behavior :
    (∀ (R : DataFrame) (P : Params) (v : String), R.schema.hasJobTitle = false →
        filter_dataset R { P with job_title := some v } =
          filter_dataset R { P with job_title := none }) ∧
    (∀ (R : DataFrame) (d : Int), R.rows ≠ [] → R.schema.hasTimestamp = false →
        filter_dataset R ⟨some d, none, none, none, none, none, none, none⟩ = .error "KeyError") ∧
    (∀ (R : DataFrame) (d : Int), R.rows ≠ [] → R.schema.hasTimestamp = false →
        filter_dataset R ⟨none, some d, none, none, none, none, none, none⟩ = .error "KeyError") ∧
    (∀ (R : DataFrame) (v : String), R.rows ≠ [] → (v == "") = false →
        R.schema.hasCountry = false →
        filter_dataset R ⟨none, none, some v, none, none, none, none, none⟩ = .error "KeyError") ∧
    (∀ (R : DataFrame) (v : String), R.rows ≠ [] → (v == "") = false →
        R.schema.hasRegion = false →
        filter_dataset R ⟨none, none, none, some v, none, none, none, none⟩ = .error "KeyError") ∧
    (∀ (R : DataFrame) (v : String), R.rows ≠ [] → (v == "") = false →
        R.schema.hasCity = false →
        filter_dataset R ⟨none, none, none, none, some v, none, none, none⟩ = .error "KeyError") ∧
    (∀ (R : DataFrame) (v : String), R.rows ≠ [] → (v == "") = false →
        R.schema.hasRequestCategory = false →
        filter_dataset R ⟨none, none, none, none, none, some v, none, none⟩ = .error "KeyError") ∧
    (∀ (R : DataFrame) (v : String), R.rows ≠ [] → (v == "") = false →
        R.schema.hasSalesRep = false →
        filter_dataset R ⟨none, none, none, none, none, none, none, some v⟩ = .error "KeyError") := by
  refine ⟨fun R P v hJT => filter_jt_ignored R P (some v) hJT, ?_, ?_, ?_, ?_, ?_, ?_, ?_⟩
  all_goals
    intro R w hnil
    intros
    rw [filter_dataset, if_neg (by simpa using hnil)]
    simp [runStepDate, runStepStr, Bind.bind, Except.bind, *]

/-- Claim C3, as stated, is false: a non-empty country key on a non-empty
store whose schema lacks the Country column raises KeyError instead of
being silently ignored. -/
theorem C3_counterexample :
    filter_dataset tsOnlyStore (countryParams "X") = .error "KeyError" ∧
    tsOnlyStore.schema.hasCountry = false := by
  refine ⟨by decide, by decide⟩

/-- Claim C4 (amended): on an empty filtered subset, exactly six endpoints
return the degraded `{message, filters, data_count: 0}` shape
(sales_metrics, top_products, customer_locations, page_access,
generate_insights, sales_by_rep); job_title_counts returns `{message,
filters}` without a data_count key; total_entries returns the bare count 0,
unique_visitors the bare count 0; trends and service_requests return an
empty row list (when their columns exist) — none of the latter five uses
the degraded shape. -/
theorem C4_empty_subset_shapes (store : DataFrame) (P : Params) (sch : Schema)
    (h : filter_dataset store P = .ok ⟨sch, []⟩) :
    sales_metrics store P = .noData "No sales metrics available for the selected filters" true ∧
    top_products store P = .noData "No product data available for the selected filters" true ∧
    customer_locations store P =
      .noData "No customer location data available for the selected filters" true ∧
    page_access store P = .noData "No page access data available for the selected filters" true ∧
    generate_insights store P = .noData "No data available for the selected filters" true ∧
    sales_by_rep store P = .noData "No data for selected filters" true ∧
    job_title_counts store P =
      .noData "\x27Job_Title\x27 column not found or no data after filtering" false ∧
    total_entries store P = .ok 0 ∧
    unique_visitors store P = .ok 0 ∧
    (sch.hasTimestamp = true → trends store P = .ok []) ∧
    (sch.hasServiceType = true → service_requests store P = .ok []) := by
  refine ⟨?_, ?_, ?_, ?_, ?_, ?_, ?_, ?_, ?_, ?_, ?_⟩
  · simp [sales_metrics, h]
  · simp [top_products, h]
  · simp [customer_locations, h]
  · simp [page_access, h]
  · simp [generate_insights, h]
  · simp [sales_by_rep, h]
  · simp [job_title_counts, h]
  · simp [total_entries, h]
  · simp [unique_visitors, h]
  · intro hts
    simp [trends, h, hts, dailyCounts]
  · intro hst
    simp [service_requests, h, hst, valueCounts, sortDesc, setCols2]

/-- Claim C4, as stated, is false: with filters that empty the subset, the
total-entries endpoint answers with a bare count of 0, not with the
degraded `{message, filters, data_count: 0}` shape. -/
theorem C4_counterexample :
    filter_dataset countryAStore (countryParams "B") = .ok ⟨countryAStore.schema, []⟩ ∧
    total_entries countryAStore (countryParams "B") = .ok 0 ∧
    isNoData (total_entries countryAStore (countryParams "B")) = false := by
  refine ⟨by decide, by decide, by decide⟩

/-- Claim C1 is the stated totality of the aggregation endpoints; the code
violates it: `/api/service_requests` raises ValueError on a store whose
schema lacks Service_Type (the two-name column assignment is applied to the
zero-column fallback frame), and `/api/generate_insights` raises ValueError
when the Service_Type column exists but holds no values (`idxmax` of an
empty `value_counts`), instead of returning 0 rows resp. "N/A". -/
theorem C1_totality_violation :
    service_requests tsOnlyStore noParams = .err "ValueError: Length mismatch" ∧
    generate_insights nullServiceStore noParams =
      .err "ValueError: attempt to get argmax of an empty sequence" := by
  refine ⟨by decide, by decide⟩

/-- Claim C5 (amended): the loader computes each record's profit by the
column-level rule `profitRule` — revenue minus transaction amount with NaN
propagation when both columns exist (so a record with only one of the two
values gets a NaN profit, not 0), and the scalar 0 when either column is
absent; Scenario C holds as stated: profits [50, 10, 20], total_profit 80,
total_loss 0. -/
theorem C5_profit_semantics :
    (∀ raw : DataFrame, ∀ r ∈ (load_data raw).rows, r.profit = profitRule raw.schema r) ∧
    ((load_data scenarioCRaw).rows.map (fun r => r.profit) = [some 50, some 10, some 20] ∧
      sales_metrics (load_data scenarioCRaw) noParams = .ok (150, 80, 0)) := by
  refine ⟨?_, by decide, by decide⟩
  intro raw r hr
  simp only [load_data, List.mem_filter] at hr
  obtain ⟨hr, -⟩ := hr
  cases hjt : raw.schema.hasJobTitle with
  | true =>
    simp [hjt, List.map_map, List.mem_map] at hr
    obtain ⟨r0, hr0, rfl⟩ := hr
    simp [profitRule, Function.comp]
  | false =>
    simp [hjt, List.mem_map] at hr
    obtain ⟨r0, hr0, rfl⟩ := hr
    simp [profitRule]

/-- Claim C5, as stated, is false: with both columns present but a record
whose transaction amount is missing, the loaded profit is NaN, not the
claimed 0. -/
theorem C5_counterexample :
    (load_data mixedProfitRaw).rows.map (fun r => r.profit) = [none] ∧
    mixedProfitRaw.schema.hasRevenue = true ∧
    mixedProfitRaw.schema.hasTransactionAmount = true ∧
    (none : Option Rat) ≠ some 0 := by
  refine ⟨by decide, by decide, by decide, by decide⟩

theorem C5_witness :
    ({ blankRecord with
         timestamp := some 0
         revenue := some 150
         transactionAmount := some 100
         profit := some 50 } : Record).profit =
      profitRule scenarioCRaw.schema
        { blankRecord with
            timestamp := some 0
            revenue := some 150
            transactionAmount := some 100
            profit := some 50 } :=
  C5_profit_semantics.1 scenarioCRaw _ (by decide)

theorem coherent_conversionStatus (f : DataFrame) (hco : coherent f = true)
    (hcs : f.schema.hasConversionStatus = false) :
    ∀ r ∈ f.rows, r.conversionStatus = none := by
  intro r hr
  cases hb : r.conversionStatus == none with
  | true => simpa using hb
  | false =>
    exfalso
    have h2 := List.all_eq_true.mp hco r hr
    simp only [hcs, hb] at h2
    simp at h2

/-- Claim C6: the conversion rate equals the count of "Converted" records
divided by the subset size times 100, is exactly 0 on an empty subset, and
lies in [0, 100] on every non-empty subset.  (The `coherent` hypothesis
says the frame is a representable pandas frame: a schema without the
Conversion_Status column has no values in that column.) -/
theorem C6_conversion_rate_props (f : DataFrame) (hco : coherent f = true) :
    (f.rows = [] → conversion_rate f = 0) ∧
    (f.rows ≠ [] →
      conversion_rate f =
        ((f.rows.filter (fun r => r.conversionStatus == some "Converted")).length : Rat)
          / (f.rows.length : Rat) * 100 ∧
      0 ≤ conversion_rate f ∧ conversion_rate f ≤ 100) := by
  constructor
  · intro hnil
    simp [conversion_rate, hnil]
  · intro hnil
    have hpos : 0 < f.rows.length := List.length_pos.mpr hnil
    cases hcs : f.schema.hasConversionStatus with
    | false =>
      have hnone : ∀ r ∈ f.rows, r.conversionStatus = none :=
        coherent_conversionStatus f hco hcs
      have hcount : f.rows.filter (fun r => r.conversionStatus == some "Converted") = [] := by
        rw [List.filter_eq_nil_iff]
        intro r hr
        simp [hnone r hr]
      have hzero : conversion_rate f = 0 := by simp [conversion_rate, hcs]
      rw [hzero, hcount]
      refine ⟨by simp, le_refl 0, by norm_num⟩
    | true =>
      have hformeq : conversion_rate f =
          ((f.rows.filter (fun r => r.conversionStatus == some "Converted")).length : Rat)
            / (f.rows.length : Rat) * 100 := by
        simp [conversion_rate, hcs, hpos]
      refine ⟨hformeq, ?_, ?_⟩
      · rw [hformeq]
        positivity
      · rw [hformeq]
        have hle : ((f.rows.filter (fun r => r.conversionStatus == some "Converted")).length : Rat)
            ≤ (f.rows.length : Rat) := by
          exact_mod_cast List.length_filter_le _ _
        have hn : (0 : Rat) < (f.rows.length : Rat) := by exact_mod_cast hpos
        have h1 : ((f.rows.filter (fun r => r.conversionStatus == some "Converted")).length : Rat)
            / (f.rows.length : Rat) ≤ 1 := (div_le_one hn).mpr hle
        have h2 := mul_le_mul_of_nonneg_right h1 (by norm_num : (0:Rat) ≤ 100)
        rw [one_mul] at h2
        exact h2

/-- Claim C7 (amended): on a non-empty member subset, total sales and total
revenue are the full column sums; the single sales-target value is `some 0`
when the Sales_Target column is absent from the schema or entirely null
(with achievement 0), the first ROW's entry (`iloc[0]`) when the column is
present — the first row's value `t` when present (with achievement
revenue/t × 100, or 0 when t = 0), and NaN — with a NaN achievement — when
the first row's entry is null while a later row has a value (so it is not
the first non-null occurrence the claim states). -/
theorem C7_individual_performance (m : DataFrame) (hne : m.rows ≠ []) :
    (individual_performance m).1 =
      (if m.schema.hasTransactionAmount then
        (m.rows.filterMap (fun r => r.transactionAmount)).sum else 0) ∧
    (individual_performance m).2.1 =
      (if m.schema.hasRevenue then (m.rows.filterMap (fun r => r.revenue)).sum else 0) ∧
    (m.schema.hasSalesTarget = false →
        (individual_performance m).2.2.1 = some 0 ∧
        (individual_performance m).2.2.2 = some 0) ∧
    ((∀ r ∈ m.rows, r.salesTarget = none) →
        (individual_performance m).2.2.1 = some 0 ∧
        (individual_performance m).2.2.2 = some 0) ∧
    (m.schema.hasSalesTarget = true →
      ∀ t : Rat, m.rows.head?.bind (fun r => r.salesTarget) = some t →
        (individual_performance m).2.2.1 = some t ∧
        (individual_performance m).2.2.2 =
          some (if t = 0 then 0 else (individual_performance m).2.1 / t * 100)) ∧
    (m.schema.hasSalesTarget = true →
      m.rows.head?.bind (fun r => r.salesTarget) = none →
        (∃ r ∈ m.rows, r.salesTarget ≠ none) →
        (individual_performance m).2.2.1 = none ∧
        (individual_performance m).2.2.2 = none) := by
  refine ⟨by simp [individual_performance], by simp [individual_performance], ?_, ?_, ?_, ?_⟩
  · intro hST
    constructor <;> simp [individual_performance, hST]
  · intro hall
    have hallb : m.rows.all (fun r => r.salesTarget.isNone) = true := by
      rw [List.all_eq_true]
      intro r hr
      simp [hall r hr]
    constructor <;> simp [individual_performance, hallb]
  · intro hST t ht
    rw [Option.bind_eq_some] at ht
    obtain ⟨r0, hhead, hr0⟩ := ht
    have hallb : m.rows.all (fun r => r.salesTarget.isNone) = false := by
      rw [List.all_eq_false]
      refine ⟨r0, List.mem_of_mem_head? (by simp [hhead]), by simp [hr0]⟩
    have htgt : (individual_performance m).2.2.1 = some t := by
      simp [individual_performance, hST, hallb, hhead, hr0]
    refine ⟨htgt, ?_⟩
    by_cases ht0 : t = 0
    · simp [individual_performance, hST, hallb, hhead, hr0, ht0]
    · simp [individual_performance, hST, hallb, hhead, hr0, ht0]
  · intro hST hnone hex
    obtain ⟨r1, hr1, hv⟩ := hex
    have hallb : m.rows.all (fun r => r.salesTarget.isNone) = false := by
      rw [List.all_eq_false]
      refine ⟨r1, hr1, by simpa using hv⟩
    constructor <;> simp [individual_performance, hST, hallb, hnone]

/-- Claim C7, as stated, is false: with a null first-row Sales_Target and
the value 5 in a later row, the code's target is NaN (`iloc[0]`), not the
first non-null occurrence 5, and the achievement percentage becomes NaN. -/
theorem C7_counterexample :
    (individual_performance nanFirstTargetStore).2.2.1 = none ∧
    (individual_performance nanFirstTargetStore).2.2.2 = none ∧
    (nanFirstTargetStore.rows.filterMap (fun r => r.salesTarget)).head? = some 5 ∧
    nanFirstTargetStore.rows ≠ [] := by
  refine ⟨by decide, by decide, by decide, by decide⟩

theorem list_sum_nonneg_of_mem (l : List Rat) (h : ∀ x ∈ l, 0 ≤ x) : 0 ≤ l.sum := by
  induction l with
  | nil => simp
  | cons a as ih =>
    rw [List.sum_cons]
    have ha := h a (by simp)
    have hs := ih (fun x hx => h x (by simp [hx]))
    exact add_nonneg ha hs

theorem list_sum_nonpos_of_mem (l : List Rat) (h : ∀ x ∈ l, x ≤ 0) : l.sum ≤ 0 := by
  induction l with
  | nil => simp
  | cons a as ih =>
    rw [List.sum_cons]
    have ha := h a (by simp)
    have hs := ih (fun x hx => h x (by simp [hx]))
    exact add_nonpos ha hs

theorem posSum_nonneg (rows : List Record) (get : Record → Option Rat) :
    0 ≤ posSum rows get := by
  apply list_sum_nonneg_of_mem
  intro x hx
  rw [List.mem_filterMap] at hx
  obtain ⟨r, hr, hget⟩ := hx
  rw [List.mem_filter] at hr
  obtain ⟨-, hp⟩ := hr
  rw [hget] at hp
  have : 0 < x := by simpa using hp
  exact le_of_lt this

theorem negSum_nonpos (rows : List Record) (get : Record → Option Rat) :
    negSum rows get ≤ 0 := by
  apply list_sum_nonpos_of_mem
  intro x hx
  rw [List.mem_filterMap] at hx
  obtain ⟨r, hr, hget⟩ := hx
  rw [List.mem_filter] at hr
  obtain ⟨-, hp⟩ := hr
  rw [hget] at hp
  have : x < 0 := by simpa using hp
  exact le_of_lt this

/-- Claim C10: for every non-empty filtered subset, the sales-metrics
payload satisfies total_sales ≥ 0, total_profit ≥ 0 and total_loss ≤ 0:
each component sums only strictly positive (resp. strictly negative)
values, or is the constant 0 when its column is absent. -/
theorem C10_sales_metrics_signs (store : DataFrame) (P : Params) (f : DataFrame)
    (h : filter_dataset store P = .ok f) (hne : f.rows ≠ []) :
    ∃ s p l : Rat, sales_metrics store P = .ok (s, p, l) ∧ 0 ≤ s ∧ 0 ≤ p ∧ l ≤ 0 := by
  refine ⟨(if f.schema.hasTransactionAmount then posSum f.rows (fun r => r.transactionAmount) else 0),
          (if f.schema.hasProfit then posSum f.rows (fun r => r.profit) else 0),
          (if f.schema.hasProfit then negSum f.rows (fun r => r.profit) else 0), ?_, ?_, ?_, ?_⟩
  · simp [sales_metrics, h, List.isEmpty_iff, hne]
  · by_cases hc : f.schema.hasTransactionAmount <;> simp [hc, posSum_nonneg]
  · by_cases hc : f.schema.hasProfit <;> simp [hc, posSum_nonneg]
  · by_cases hc : f.schema.hasProfit <;> simp [hc, negSum_nonpos]

theorem sum_map_add_rat {α : Type} (K : List α) (f g : α → Rat) :
    (K.map (fun k => f k + g k)).sum = (K.map f).sum + (K.map g).sum := by
  induction K with
  | nil => simp
  | cons k ks ih =>
    simp only [List.map_cons, List.sum_cons, ih]
    ring

theorem sum_ite_not_mem (K : List String) (k0 : String) (c : Rat) (h : k0 ∉ K) :
    (K.map (fun k => if k0 = k then c else 0)).sum = 0 := by
  induction K with
  | nil => simp
  | cons k ks ih =>
    have hne : k0 ≠ k := by
      intro hh
      exact h (by simp [hh])
    have hnm : k0 ∉ ks := fun hh => h (by simp [hh])
    simp [hne, ih hnm]

theorem sum_ite_single (K : List String) (k0 : String) (c : Rat)
    (hnd : K.Nodup) (hm : k0 ∈ K) :
    (K.map (fun k => if k0 = k then c else 0)).sum = c := by
  induction K with
  | nil => simp at hm
  | cons k ks ih =>
    rcases List.mem_cons.mp hm with rfl | hm2
    · have hnm : k0 ∉ ks := (List.nodup_cons.mp hnd).1
      simp [sum_ite_not_mem ks k0 c hnm]
    · have hne : k0 ≠ k := by
        rintro rfl
        exact (List.nodup_cons.mp hnd).1 hm2
      simp [hne, ih (List.nodup_cons.mp hnd).2 hm2]

theorem groupTerm_cons (key : Record → Option String) (val : Record → Option Rat)
    (r : Record) (rs : List Record) (k : String) :
    (((r :: rs).filter (fun x => key x == some k)).filterMap val).sum =
      (if key r == some k then (val r).getD 0 else 0) +
        ((rs.filter (fun x => key x == some k)).filterMap val).sum := by
  rw [List.filter_cons]
  by_cases hk : (key r == some k) = true
  · cases hv : val r with
    | none => simp [hk, List.filterMap_cons, hv]
    | some v => simp [hk, List.filterMap_cons, hv]
  · simp [hk]

theorem grouped_sum_covers (key : Record → Option String) (val : Record → Option Rat) :
    ∀ (rows : List Record) (K : List String), K.Nodup →
      (∀ r ∈ rows, ∀ k : String, key r = some k → k ∈ K) →
      (K.map (fun k => ((rows.filter (fun x => key x == some k)).filterMap val).sum)).sum =
        ((rows.filter (fun r => (key r).isSome)).filterMap val).sum := by
  intro rows
  induction rows with
  | nil =>
    intro K _ _
    simp
  | cons r rs ih =>
    intro K hnd hcov
    have hfun : (fun k => (((r :: rs).filter (fun x => key x == some k)).filterMap val).sum) =
        (fun k => (if key r == some k then (val r).getD 0 else (0 : Rat))
          + ((rs.filter (fun x => key x == some k)).filterMap val).sum) := by
      funext k
      exact groupTerm_cons key val r rs k
    rw [hfun, sum_map_add_rat, ih K hnd (fun x hx k hk => hcov x (by simp [hx]) k hk)]
    cases hkr : key r with
    | none =>
      have hz : (K.map (fun k =>
          if ((none : Option String) == some k) = true then (val r).getD 0 else (0 : Rat))).sum
          = 0 := by
        apply List.sum_eq_zero
        intro x hx
        rw [List.mem_map] at hx
        obtain ⟨k, -, rfl⟩ := hx
        simp
      rw [hz, List.filter_cons]
      simp [hkr]
    | some k0 =>
      have hk0 : k0 ∈ K := hcov r (by simp) k0 hkr
      have hform : (K.map (fun k =>
          if ((some k0 : Option String) == some k) = true then (val r).getD 0 else (0 : Rat))).sum
          = (val r).getD 0 := by
        have heq : (fun k =>
            if ((some k0 : Option String) == some k) = true then (val r).getD 0 else (0 : Rat)) =
            (fun k => if k0 = k then (val r).getD 0 else 0) := by
          funext k
          simp
        rw [heq]
        exact sum_ite_single K k0 _ hnd hk0
      rw [hform, List.filter_cons]
      cases hv : val r <;> simp [hkr, List.filterMap_cons, hv]

/-- Claim C8 (amended): the per-group sums of `groupSum` add up to the sum
of the value column over the rows whose GROUP KEY IS PRESENT — pandas
`groupby` drops rows with a null key, so rows with a NaN group field are
excluded from the partition (the claim's "sum over all rows" only holds
when every row has a non-null group key). -/
theorem C8_group_partition (rows : List Record) (key : Record → Option String)
    (val : Record → Option Rat) :
    ((groupSum rows key val).map (fun p => p.2)).sum =
      sumWhere (rows.filter (fun r => (key r).isSome)) val (fun _ => true) := by
  unfold groupSum sumWhere
  rw [List.map_map]
  have hcov : ∀ r ∈ rows, ∀ k : String, key r = some k → k ∈ (rows.filterMap key).dedup := by
    intro r hr k hk
    rw [List.mem_dedup]
    exact List.mem_filterMap.mpr ⟨r, hr, hk⟩
  have hmain := grouped_sum_covers key val rows ((rows.filterMap key).dedup)
    (List.nodup_dedup _) hcov
  simpa [List.filter_true, Function.comp] using hmain

/-- Claim C8, as stated, is false: a row whose group key is NaN contributes
to the plain column sum but to no group, so the group sums (0) differ from
the total (7). -/
theorem C8_counterexample :
    ((groupSum nullKeyRows (fun r => r.salesRep) (fun r => r.transactionAmount)).map
        (fun p => p.2)).sum = 0 ∧
    sumWhere nullKeyRows (fun r => r.transactionAmount) (fun _ => true) = 7 := by
  refine ⟨by decide, by decide⟩

/-- Witness for C2 at a concrete store and spec. -/
theorem C2_witness :
    convHalfStore.rows =
      convHalfStore.rows.filter (fun r => matchesAmended convHalfStore.schema noParams r) :=
  (C2_filter_semantics convHalfStore noParams convHalfStore (by decide)).1

/-- Witness for C3 at concrete stores: the ignored job_title key and the
KeyError of a missing Country column. -/
theorem C3_witness :
    filter_dataset tsOnlyStore { noParams with job_title := some "Engineer" } =
      filter_dataset tsOnlyStore { noParams with job_title := none } ∧
    filter_dataset nullServiceStore ⟨none, none, some "X", none, none, none, none, none⟩ =
      .error "KeyError" :=
  ⟨C3_absent_column_behavior.1 tsOnlyStore noParams "Engineer" (by decide),
   C3_absent_column_behavior.2.2.2.1 nullServiceStore "X" (by decide) (by decide) (by decide)⟩

/-- Witness for C4 at a concrete store and emptying spec. -/
theorem C4_witness :
    sales_metrics countryAStore (countryParams "B") =
      .noData "No sales metrics available for the selected filters" true :=
  (C4_empty_subset_shapes countryAStore (countryParams "B") countryAStore.schema (by decide)).1

/-- Witness for C6 at a concrete two-row half-converted subset. -/
theorem C6_witness :
    conversion_rate convHalfStore =
      ((convHalfStore.rows.filter (fun r => r.conversionStatus == some "Converted")).length : Rat)
        / (convHalfStore.rows.length : Rat) * 100 ∧
    0 ≤ conversion_rate convHalfStore ∧ conversion_rate convHalfStore ≤ 100 :=
  (C6_conversion_rate_props convHalfStore (by decide)).2 (by decide)

/-- Witness for C7 at a member subset whose first row carries target 4, and
at one whose schema lacks the Sales_Target column. -/
theorem C7_witness :
    ((individual_performance plainTargetStore).2.2.1 = some 4 ∧
     (individual_performance plainTargetStore).2.2.2 =
       some (if (4 : Rat) = 0 then 0
             else (individual_performance plainTargetStore).2.1 / 4 * 100)) ∧
    ((individual_performance convHalfStore).2.2.1 = some 0 ∧
     (individual_performance convHalfStore).2.2.2 = some 0) :=
  ⟨(C7_individual_performance plainTargetStore (by decide)).2.2.2.2.1 (by decide) 4 (by decide),
   (C7_individual_performance convHalfStore (by decide)).2.2.1 (by decide)⟩

/-- Witness for C9: identity on a concrete store, idempotence on a concrete
filtered-to-empty store. -/
theorem C9_witness :
    filter_dataset convHalfStore noParams = .ok convHalfStore ∧
    filter_dataset (⟨countryAStore.schema, []⟩ : DataFrame) (countryParams "B") =
      .ok (⟨countryAStore.schema, []⟩ : DataFrame) :=
  ⟨C9_filter_identity_idempotent.1 convHalfStore noParams (by decide),
   C9_filter_identity_idempotent.2 countryAStore (countryParams "B")
     (⟨countryAStore.schema, []⟩ : DataFrame) (by decide)⟩

/-- Witness for C10 at a concrete store with a gain, a loss and a NaN. -/
theorem C10_witness :
    ∃ s p l : Rat, sales_metrics signsStore noParams = .ok (s, p, l) ∧
      0 ≤ s ∧ 0 ≤ p ∧ l ≤ 0 :=
  C10_sales_metrics_signs signsStore noParams signsStore (by decide) (by decide)

end Dashboard
